import Mathlib

/-!
Verification development for the pull-tweets ingestion pipeline.

The Python sources are shallowly embedded as pure Lean functions:

* `src/rate_limiter.py`   — `handle_twikit_rate_limits` (reactive rate-limit handling);
* `src/tweet_extractor.py` — `get_tweet_date`, `extract_with_pagination`
  (the pagination / retry / cutoff state machine, driven by a script of
  fetch outcomes that stands for the remote collaborator);
* `src/data_processor.py` — record validation and normalization,
  `write_batch_to_parquet` (the rows a flush persists), the per-record
  step of `process_tweet_stream` (batching, memory check, consecutive
  failure counter, periodic checkpointing), and the checkpoint manager.

Effects that are not representable (sleeping, logging, actual file I/O)
are abstracted: sleeps become data carried by the result, the parquet
file becomes the list of rows written to it, and the checkpoint side-file
becomes a name-indexed store.
-/

namespace PullTweets

/-! ### Rate limiter — src/rate_limiter.py -/

/-- Error taxonomy seen by `handle_twikit_rate_limits`: twikit's
`TooManyRequests` (optionally carrying a `rate_limit_reset` field),
`Unauthorized`, `Forbidden`, and every other exception. -/
inductive TwikitError where
  | tooManyRequests (rateLimitReset : Option Int)
  | unauthorized
  | forbidden
  | otherError
deriving DecidableEq, Repr

/-- Outcome of `handle_twikit_rate_limits`: sleep `wait` seconds and
return `True`; return `False`; or re-raise the error. -/
inductive HandleOutcome where
  | retryAfter (wait : Int)
  | stop
  | reraised
deriving DecidableEq, Repr

def RATE_LIMIT_BUFFER_SECONDS : Int := 60
def MIN_WAIT_SECONDS : Int := 300
def DEFAULT_RATE_LIMIT_WAIT_SECONDS : Int := 900
def MAX_WAIT_SECONDS : Int := 3600

/-- Embeds `RateLimiter.handle_twikit_rate_limits` (src/rate_limiter.py,
lines 39-77). `now` stands for `int(time.time())`. A reset value of `0`
is falsy in Python, so `hasattr(error, 'rate_limit_reset') and
error.rate_limit_reset` routes it to the default-wait branch. -/
def handle_twikit_rate_limits (now : Int) (error : TwikitError) : HandleOutcome :=
  match error with
  | .tooManyRequests rateLimitReset =>
    match rateLimitReset with
    | some reset_time =>
      if reset_time = 0 then
        .retryAfter DEFAULT_RATE_LIMIT_WAIT_SECONDS
      else if reset_time > now ∧ reset_time - now < MAX_WAIT_SECONDS then
        let sleep_time := reset_time - now + RATE_LIMIT_BUFFER_SECONDS
        let wait_time := max sleep_time MIN_WAIT_SECONDS
        .retryAfter (min wait_time MAX_WAIT_SECONDS)
      else
        .retryAfter DEFAULT_RATE_LIMIT_WAIT_SECONDS
    | none => .retryAfter DEFAULT_RATE_LIMIT_WAIT_SECONDS
  | .unauthorized => .stop
  | .forbidden => .stop
  | .otherError => .reraised

/-! ### Tweet dates — src/tweet_extractor.py, get_tweet_date -/

/-- One probed date attribute of a tweet: missing or falsy
(`hasattr` false, or the value is falsy), present but rejected by
`DateParser.parse_tweet_date` with a `ValueError`, or parsed to a
timestamp (modelled as an integer). -/
inductive DateAttrVal where
  | absent
  | unparseable
  | parsed (d : Int)
deriving DecidableEq, Repr

/-- A raw tweet as the extractor sees it: the identifier and the three
date attributes `get_tweet_date` probes, in probe order. -/
structure Tw where
  id : Option String
  created_at_datetime : DateAttrVal
  created_at : DateAttrVal
  date : DateAttrVal
deriving DecidableEq, Repr

/-- Embeds `TweetExtractor.get_tweet_date` (src/tweet_extractor.py,
lines 99-114): probe `created_at_datetime`, `created_at`, `date` in that
order; the first attribute that is present, truthy and parseable wins;
otherwise return `None`. -/
def get_tweet_date (t : Tw) : Option Int :=
  match t.created_at_datetime with
  | .parsed d => some d
  | _ =>
    match t.created_at with
    | .parsed d => some d
    | _ =>
      match t.date with
      | .parsed d => some d
      | _ => none

/-! ### Pagination extractor — src/tweet_extractor.py, extract_with_pagination -/

/-- One page of results from the remote collaborator. `next_cursor`
models the truthiness of `hasattr(tweets, 'next_cursor') and
tweets.next_cursor`. -/
structure Page where
  items : List Tw
  next_cursor : Bool
deriving DecidableEq, Repr

/-- Outcome of one fetch attempt against the remote collaborator. -/
inductive FetchRes where
  | ok (p : Page)
  | err (e : TwikitError)
deriving DecidableEq, Repr

/-- How the produced (generator) sequence ends. The Python generator
returns plainly both on natural completion and on the cutoff branch;
the two are tagged separately here so theorems can tell them apart.
`truncated` is the silent early return inside the pagination loop;
`raised` means an exception escapes the generator; `scriptEnded` is a
modelling artifact for when the fetch script runs dry. -/
inductive Ending where
  | completed
  | cutoffHit
  | truncated
  | raised
  | scriptEnded
deriving DecidableEq, Repr

/-- The records a run of the generator yields, and how it ends. -/
structure ExtractOut where
  yielded : List Tw
  ending : Ending
deriving DecidableEq, Repr

/-- Embeds the per-page item loop of `extract_with_pagination`
(src/tweet_extractor.py, lines 56-61 and 72-77): scan items in order;
on the first item whose parsed date is strictly before the cutoff,
stop and report the cutoff was hit (that item is not yielded);
items without a parseable date are yielded unconditionally. -/
def yieldScan (cutoff : Int) : List Tw → List Tw × Bool
  | [] => ([], false)
  | t :: ts =>
    match get_tweet_date t with
    | some d =>
      if d < cutoff then ([], true)
      else ((t :: (yieldScan cutoff ts).1), (yieldScan cutoff ts).2)
    | none => ((t :: (yieldScan cutoff ts).1), (yieldScan cutoff ts).2)

/-- Embeds the pagination loop of `extract_with_pagination`
(src/tweet_extractor.py, lines 64-87). The script supplies one
`FetchRes` per fetch attempt (`tweets.next()`); `page_retry_count` is
the per-page retry counter. An error the rate limiter handles
(`TooManyRequests`) consumes a retry and, at the third failed attempt,
silently ends the sequence; an error it classifies as fatal
(`Unauthorized` or `Forbidden`, handler returns false) also silently
ends the sequence; any other error propagates out of the generator
(the handler re-raises it, and the outer except re-raises it again). -/
def pagLoop (cutoff : Int) : List FetchRes → Nat → ExtractOut
  | [], _ => ⟨[], .scriptEnded⟩
  | .ok p :: rest, _ =>
    let scanned := yieldScan cutoff p.items
    if scanned.2 then ⟨scanned.1, .cutoffHit⟩
    else if p.next_cursor then
      let out := pagLoop cutoff rest 0
      ⟨scanned.1 ++ out.yielded, out.ending⟩
    else ⟨scanned.1, .completed⟩
  | .err e :: rest, page_retry_count =>
    match handle_twikit_rate_limits 0 e with
    | .retryAfter _ =>
      if page_retry_count + 1 ≥ 3 then ⟨[], .truncated⟩
      else pagLoop cutoff rest (page_retry_count + 1)
    | .stop => ⟨[], .truncated⟩
    | .reraised => ⟨[], .raised⟩

/-- Embeds the outer retry loop of `extract_with_pagination`
(src/tweet_extractor.py, lines 49-97), which fetches the first page.
A handled error consumes a retry and, at the third failed attempt,
raises `RuntimeError`; a fatal classification raises immediately; any
other error is re-raised by the handler. After a successful first page
whose scan did not hit the cutoff, pagination continues via `pagLoop`
while the current page carries a cursor. -/
def extractLoop (cutoff : Int) : List FetchRes → Nat → ExtractOut
  | [], _ => ⟨[], .scriptEnded⟩
  | .ok p :: rest, _ =>
    let scanned := yieldScan cutoff p.items
    if scanned.2 then ⟨scanned.1, .cutoffHit⟩
    else if p.next_cursor then
      let out := pagLoop cutoff rest 0
      ⟨scanned.1 ++ out.yielded, out.ending⟩
    else ⟨scanned.1, .completed⟩
  | .err e :: rest, retry_count =>
    match handle_twikit_rate_limits 0 e with
    | .retryAfter _ =>
      if retry_count + 1 ≥ 3 then ⟨[], .raised⟩
      else extractLoop cutoff rest (retry_count + 1)
    | .stop => ⟨[], .raised⟩
    | .reraised => ⟨[], .raised⟩

/-- Embeds `extract_with_pagination(user, cutoff_date, max_retries=3)`
as a whole run: the script lists the outcome of every fetch attempt the
remote collaborator answers, in order. -/
def extract_with_pagination (cutoff : Int) (script : List FetchRes) : ExtractOut :=
  extractLoop cutoff script 0

/-! ### Record validation and normalization — src/data_processor.py -/

/-- Raw value of one of the six numeric engagement fields before
normalization: key absent or value `None`; an integer; a nonempty
string that `int(str(value))` converts; or any value the conversion
rejects (`ValueError` / `TypeError`). -/
inductive NumVal where
  | missing
  | intv (n : Int)
  | strNum (n : Int)
  | badVal
deriving DecidableEq, Repr

/-- Raw `created_at` value: absent or falsy; a `datetime` (timestamp as
integer); or any other value, kept through `str(...)` as a string. -/
inductive CreatedVal where
  | missing
  | dtv (d : Int)
  | strv (s : String)
deriving DecidableEq, Repr

/-- A tweet dictionary as `process_tweet_stream` receives it, restricted
to the fields that validation and normalization inspect. `Option
String` fields distinguish a missing or `None` value from a present
string (the empty string being falsy in Python). -/
structure Rec where
  id : Option String
  text : Option String
  full_text : Option String
  created_at : CreatedVal
  favorite_count : NumVal
  retweet_count : NumVal
  reply_count : NumVal
  quote_count : NumVal
  view_count : NumVal
  bookmark_count : NumVal
  favorited : Option Bool
  bookmarked : Option Bool
  has_card : Option Bool
  is_quote_status : Option Bool
  possibly_sensitive : Option Bool
  is_translatable : Option Bool
  hashtags : Option (List String)
  urls : Option (List String)
deriving DecidableEq, Repr

/-- Python truthiness of an optional string: `None` and `""` are falsy. -/
def truthyStr : Option String → Bool
  | none => false
  | some s => !(s == "")

/-- Embeds `StreamingDataProcessor.validate_tweet_data`
(src/data_processor.py, lines 223-234): reject when `tweet.get('id')`
is falsy, or both `tweet.get('text')` and `tweet.get('full_text')` are
falsy. -/
def validate_tweet_data (t : Rec) : Bool :=
  if !truthyStr t.id then false
  else if !truthyStr t.text && !truthyStr t.full_text then false
  else true

/-- Result of `int(str(value)) if value else 0` with fallback `0` on
`None` and on conversion failure (src/data_processor.py, lines 241-252). -/
def normNum : NumVal → Int
  | .missing => 0
  | .intv n => if n = 0 then 0 else n
  | .strNum n => n
  | .badVal => 0

/-- Normalization of `created_at` (src/data_processor.py, lines
264-270): a `datetime` passes through; any other truthy value is
stringified (a string maps to itself); a falsy value is untouched. -/
def normCreated : CreatedVal → CreatedVal
  | .missing => .missing
  | .dtv d => .dtv d
  | .strv s => .strv s

/-- A record after `normalize_tweet_data`: numeric fields are concrete
integers, boolean fields concrete booleans, list fields concrete lists. -/
structure NormRec where
  id : Option String
  text : Option String
  full_text : Option String
  created_at : CreatedVal
  favorite_count : Int
  retweet_count : Int
  reply_count : Int
  quote_count : Int
  view_count : Int
  bookmark_count : Int
  favorited : Bool
  bookmarked : Bool
  has_card : Bool
  is_quote_status : Bool
  possibly_sensitive : Bool
  is_translatable : Bool
  hashtags : List String
  urls : List String
deriving DecidableEq, Repr

/-- Embeds `StreamingDataProcessor.normalize_tweet_data`
(src/data_processor.py, lines 236-272): coerce the six numeric fields,
default the six boolean fields to `False` when `None`, default falsy
list fields to `[]`, and pass `id`, `text`, `full_text` and
`created_at` through (stringification aside). -/
def normalize_tweet_data (t : Rec) : NormRec :=
  { id := t.id
    text := t.text
    full_text := t.full_text
    created_at := normCreated t.created_at
    favorite_count := normNum t.favorite_count
    retweet_count := normNum t.retweet_count
    reply_count := normNum t.reply_count
    quote_count := normNum t.quote_count
    view_count := normNum t.view_count
    bookmark_count := normNum t.bookmark_count
    favorited := t.favorited.getD false
    bookmarked := t.bookmarked.getD false
    has_card := t.has_card.getD false
    is_quote_status := t.is_quote_status.getD false
    possibly_sensitive := t.possibly_sensitive.getD false
    is_translatable := t.is_translatable.getD false
    hashtags := t.hashtags.getD []
    urls := t.urls.getD [] }

/-- Embeds `StreamingDataProcessor.write_batch_to_parquet`
(src/data_processor.py, lines 156-206) as the rows one flush appends to
the output file: records failing `validate_tweet_data` are dropped, the
rest are normalized. The column alignment of lines 175-194 is the
identity on this fixed-shape record; an empty batch, and a batch with
no valid record, append nothing. -/
def write_batch_to_parquet (tweets : List Rec) : List NormRec :=
  (tweets.filter (fun t => validate_tweet_data t)).map normalize_tweet_data

/-! ### Memory accounting — src/data_processor.py, lines 72-87 -/

/-- Embeds `get_memory_usage_mb`: the probe result is
`process.memory_info().rss` in bytes, or `none` when the query raised;
on success the value is converted to megabytes, on failure the method
returns `0.0`. -/
def get_memory_usage_mb (probe : Option ℚ) : ℚ :=
  match probe with
  | some rss => rss / (1024 * 1024)
  | none => 0

/-- Embeds `check_memory_limit`: `False` exactly when current usage
strictly exceeds `max_memory_mb`. -/
def check_memory_limit (max_memory_mb : ℚ) (probe : Option ℚ) : Bool :=
  if get_memory_usage_mb probe > max_memory_mb then false else true

/-! ### The streaming writer loop — src/data_processor.py, process_tweet_stream -/

/-- Constructor arguments of `StreamingDataProcessor` used by the loop. -/
structure WriterConfig where
  batch_size : Nat
  checkpoint_interval : Nat
  max_memory_mb : ℚ
deriving DecidableEq, Repr

/-- Environment one loop iteration draws on: the memory probe outcome
for this iteration (`none` when `memory_info()` raises) and whether the
parquet write, if attempted, succeeds. The second memory check on line
124 only chooses between the two logging paths, whose effect on the
modelled state is identical, so a single probe per iteration suffices. -/
structure StepEnv where
  memProbe : Option ℚ
  flushOk : Bool
deriving DecidableEq, Repr

/-- Mutable state of `process_tweet_stream` together with the
observable history: rows written to the parquet file, checkpoints
saved (last tweet id, count), and the number of flush attempts. -/
structure WState where
  batch : List Rec
  total_count : Nat
  last_tweet_id : Option String
  consecutive_failures : Nat
  output_rows : List NormRec
  checkpoints : List (Option String × Nat)
  flush_attempts : Nat
deriving DecidableEq, Repr

/-- State at entry of `process_tweet_stream`. -/
def initWState : WState :=
  { batch := [], total_count := 0, last_tweet_id := none,
    consecutive_failures := 0, output_rows := [], checkpoints := [],
    flush_attempts := 0 }

/-- Result of one loop iteration: continue with the new state, or abort
with `RuntimeError` after too many consecutive write failures. -/
inductive StepResult where
  | next (s : WState)
  | abortedRun (s : WState)
deriving DecidableEq, Repr

/-- State carried by either `StepResult` constructor. -/
def StepResult.state : StepResult → WState
  | .next s => s
  | .abortedRun s => s

/-- Whether the result is the `RuntimeError` abort. -/
def StepResult.isAborted : StepResult → Bool
  | .next _ => false
  | .abortedRun _ => true

/-- The flush decision of src/data_processor.py, lines 117-120:
normal batch size reached, or memory limit exceeded. -/
def should_write_batch (cfg : WriterConfig) (batchLen : Nat) (env : StepEnv) : Bool :=
  decide (batchLen ≥ cfg.batch_size) || !(check_memory_limit cfg.max_memory_mb env.memProbe)

/-- Embeds one iteration of the `async for` loop of
`process_tweet_stream` (src/data_processor.py, lines 111-145): append
the record, bump the count, remember its id; if the flush decision
fires, attempt the write (`handle_memory_pressure` and the normal path
both write the batch); on success reset the failure counter and save a
checkpoint when the count is a multiple of `checkpoint_interval`; on
failure increment the counter and raise after the third consecutive
failure; in every flush branch the batch ends empty (the `finally` on
line 144, and `handle_memory_pressure` itself, clear it). -/
def process_one (cfg : WriterConfig) (s : WState) (tweet : Rec) (env : StepEnv) : StepResult :=
  let batch := s.batch ++ [tweet]
  let total_count := s.total_count + 1
  let last_tweet_id := tweet.id
  if should_write_batch cfg batch.length env then
    if env.flushOk then
      .next { batch := []
              total_count := total_count
              last_tweet_id := last_tweet_id
              consecutive_failures := 0
              output_rows := s.output_rows ++ write_batch_to_parquet batch
              checkpoints :=
                if total_count % cfg.checkpoint_interval = 0 then
                  s.checkpoints ++ [(last_tweet_id, total_count)]
                else s.checkpoints
              flush_attempts := s.flush_attempts + 1 }
    else
      let s' : WState :=
        { batch := []
          total_count := total_count
          last_tweet_id := last_tweet_id
          consecutive_failures := s.consecutive_failures + 1
          output_rows := s.output_rows
          checkpoints := s.checkpoints
          flush_attempts := s.flush_attempts + 1 }
      if s.consecutive_failures + 1 ≥ 3 then .abortedRun s' else .next s'
  else
    .next { batch := batch
            total_count := total_count
            last_tweet_id := last_tweet_id
            consecutive_failures := s.consecutive_failures
            output_rows := s.output_rows
            checkpoints := s.checkpoints
            flush_attempts := s.flush_attempts }

/-- Folds `process_one` over the stream, stopping at an abort. Each
stream element pairs the record with that iteration's environment. -/
def processSteps (cfg : WriterConfig) : WState → List (Rec × StepEnv) → StepResult
  | s, [] => .next s
  | s, (t, env) :: rest =>
    match process_one cfg s t env with
    | .next s' => processSteps cfg s' rest
    | .abortedRun s' => .abortedRun s'

/-- How a whole run of `process_tweet_stream` ends: stream consumed and
final batch written; aborted by the consecutive-failure policy; or the
final-batch write raised. The writer is finalized on every one of these
paths (the `finally` on line 152). -/
inductive RunOutcome where
  | finished (s : WState)
  | abortedRun (s : WState)
  | raisedFinal (s : WState)
deriving DecidableEq, Repr

/-- Embeds `process_tweet_stream` (src/data_processor.py, lines
104-154) over a finite stream: fold the loop body, then write the
final partial batch if any (`finalOk` says whether that write
succeeds). -/
def process_tweet_stream (cfg : WriterConfig) (stream : List (Rec × StepEnv))
    (finalOk : Bool) : RunOutcome :=
  match processSteps cfg initWState stream with
  | .abortedRun s => .abortedRun s
  | .next s =>
    if s.batch.isEmpty then .finished s
    else if finalOk then
      .finished { s with
                  batch := []
                  output_rows := s.output_rows ++ write_batch_to_parquet s.batch
                  flush_attempts := s.flush_attempts + 1 }
    else .raisedFinal s

/-! ### Checkpoint manager — src/data_processor.py, lines 287-348 -/

/-- The checkpoint record `save_checkpoint` serializes. -/
structure Checkpoint where
  last_tweet_id : String
  count : Nat
  timestamp : String
  output_file : String
deriving DecidableEq, Repr

/-- Content of a file slot in the checkpoint store: absent, empty,
unparseable JSON, or a valid checkpoint. `load_checkpoint` maps the
first three to `None`. -/
inductive CkFileContent where
  | missingFile
  | emptyFile
  | corrupt
  | valid (c : Checkpoint)
deriving DecidableEq, Repr

/-- Derived side-file name (src/data_processor.py, line 290). -/
def checkpoint_file (output_file : String) : String := output_file ++ ".checkpoint"

/-- Embeds `CheckpointManager.save_checkpoint` (lines 292-308) over a
name-indexed file store: overwrite the derived side-file with the
checkpoint record. `ts` stands for `datetime.now().isoformat()`. -/
def save_checkpoint (output_file ts last_tweet_id : String) (count : Nat)
    (fs : String → CkFileContent) : String → CkFileContent :=
  fun name =>
    if name = checkpoint_file output_file then
      .valid { last_tweet_id := last_tweet_id, count := count,
               timestamp := ts, output_file := output_file }
    else fs name

/-- Embeds `CheckpointManager.load_checkpoint` (lines 310-331): a
missing, empty or corrupted side-file reads as no checkpoint. -/
def load_checkpoint (output_file : String) (fs : String → CkFileContent) :
    Option Checkpoint :=
  match fs (checkpoint_file output_file) with
  | .missingFile => none
  | .emptyFile => none
  | .corrupt => none
  | .valid c => some c

/-! ### Derived predicates and concrete fixtures -/

/-- Decidable form of a tweet having a parsed timestamp strictly before
the cutoff — the condition `tweet_date and tweet_date < cutoff_date` of
src/tweet_extractor.py, lines 58 and 74. -/
def tweetOldB (cutoff : Int) (t : Tw) : Bool :=
  match get_tweet_date t with
  | some d => decide (d < cutoff)
  | none => false

/-- A probed date attribute that does not produce a parsed date. -/
def dateAttrFails : DateAttrVal → Bool
  | .parsed _ => false
  | .absent => true
  | .unparseable => true

/-- Transcribes the spec predicate on persisted rows: a non-null
identifier and at least one non-empty text field. Stated over the
normalized row shape that reaches the output file. -/
def spec_persisted_ok (r : NormRec) : Prop :=
  r.id ≠ none ∧
    ((r.text ≠ none ∧ r.text ≠ some "") ∨ (r.full_text ≠ none ∧ r.full_text ≠ some ""))

/-- Transcribes the same spec predicate on raw records entering a flush. -/
def spec_record_ok (t : Rec) : Prop :=
  t.id ≠ none ∧
    ((t.text ≠ none ∧ t.text ≠ some "") ∨ (t.full_text ≠ none ∧ t.full_text ≠ some ""))

instance (r : NormRec) : Decidable (spec_persisted_ok r) := by
  unfold spec_persisted_ok; infer_instance

instance (t : Rec) : Decidable (spec_record_ok t) := by
  unfold spec_record_ok; infer_instance

/-- A record with every inspected field absent. -/
def blankRec : Rec :=
  { id := none, text := none, full_text := none, created_at := .missing,
    favorite_count := .missing, retweet_count := .missing, reply_count := .missing,
    quote_count := .missing, view_count := .missing, bookmark_count := .missing,
    favorited := none, bookmarked := none, has_card := none, is_quote_status := none,
    possibly_sensitive := none, is_translatable := none, hashtags := none, urls := none }

/-- A record that passes validation. -/
def goodRec : Rec := { blankRec with id := some "t1", text := some "hello" }

/-- A record with text but no identifier, which validation drops. -/
def noIdRec : Rec := { blankRec with text := some "hello" }

/-- Iteration environment: memory probe reports zero bytes resident,
flush succeeds. -/
def envFlushOk : StepEnv := { memProbe := some 0, flushOk := true }

/-- Iteration environment: memory probe reports zero bytes resident,
flush raises. -/
def envFlushFail : StepEnv := { memProbe := some 0, flushOk := false }

/-- Writer configured with batch size 1 so each record triggers a flush. -/
def cfgB1 : WriterConfig :=
  { batch_size := 1, checkpoint_interval := 1000000, max_memory_mb := 500 }

/-- The default writer configuration of `StreamingDataProcessor`. -/
def cfg50 : WriterConfig :=
  { batch_size := 50, checkpoint_interval := 100, max_memory_mb := 500 }

/-- A writer whose checkpoint interval is finer than its batch size. -/
def cfgCkpt : WriterConfig :=
  { batch_size := 2, checkpoint_interval := 1, max_memory_mb := 500 }

/-- A fetch attempt answered by a rate-limit error without reset data. -/
def rlErr : FetchRes := .err (.tooManyRequests none)

/-- A tweet whose first probed attribute parses to timestamp `n`. -/
def twWithDate (n : Int) : Tw :=
  { id := none, created_at_datetime := .parsed n, created_at := .absent, date := .absent }

/-- A tweet none of whose probed date attributes yields a date. -/
def datelessTw : Tw :=
  { id := some "x", created_at_datetime := .absent, created_at := .unparseable,
    date := .absent }

/-! ## Helper lemmas -/

theorem truthyStr_eq_true {o : Option String} :
    truthyStr o = true ↔ o ≠ none ∧ o ≠ some "" := by
  cases o with
  | none => simp [truthyStr]
  | some s => by_cases hs : s = "" <;> simp [truthyStr, hs]

theorem validate_eq_true {t : Rec} :
    validate_tweet_data t = true ↔
      truthyStr t.id = true ∧ (truthyStr t.text = true ∨ truthyStr t.full_text = true) := by
  unfold validate_tweet_data
  cases hid : truthyStr t.id <;> cases htx : truthyStr t.text <;>
    cases hft : truthyStr t.full_text <;> simp

theorem normalize_preserves_id (t : Rec) : (normalize_tweet_data t).id = t.id := rfl

theorem normalize_preserves_text (t : Rec) : (normalize_tweet_data t).text = t.text := rfl

theorem normalize_preserves_full_text (t : Rec) :
    (normalize_tweet_data t).full_text = t.full_text := rfl

theorem persisted_rows_ok (batch : List Rec) :
    ∀ row ∈ write_batch_to_parquet batch, spec_persisted_ok row := by
  intro row hrow
  simp only [write_batch_to_parquet, List.mem_map, List.mem_filter] at hrow
  obtain ⟨t, ⟨-, hv⟩, rfl⟩ := hrow
  rw [validate_eq_true] at hv
  unfold spec_persisted_ok
  refine ⟨?_, ?_⟩
  · rw [normalize_preserves_id]
    exact (truthyStr_eq_true.mp hv.1).1
  · rcases hv.2 with h | h
    · exact Or.inl (by rw [normalize_preserves_text]; exact truthyStr_eq_true.mp h)
    · exact Or.inr (by rw [normalize_preserves_full_text]; exact truthyStr_eq_true.mp h)

theorem check_memory_limit_eq_false {maxMb : ℚ} {probe : Option ℚ} :
    check_memory_limit maxMb probe = false ↔ get_memory_usage_mb probe > maxMb := by
  unfold check_memory_limit
  split <;> simp_all

theorem check_memory_limit_500_zero : check_memory_limit 500 (some 0) = true := by
  norm_num [check_memory_limit, get_memory_usage_mb]

theorem should_write_batch_iff {cfg : WriterConfig} {n : Nat} {env : StepEnv} :
    should_write_batch cfg n env = true ↔
      (n ≥ cfg.batch_size ∨ get_memory_usage_mb env.memProbe > cfg.max_memory_mb) := by
  unfold should_write_batch
  rw [Bool.or_eq_true, decide_eq_true_iff, Bool.not_eq_true', check_memory_limit_eq_false]

theorem handle_tmr_is_retry (now : Int) (o : Option Int) :
    ∃ w, handle_twikit_rate_limits now (.tooManyRequests o) = .retryAfter w := by
  cases o with
  | none => exact ⟨DEFAULT_RATE_LIMIT_WAIT_SECONDS, rfl⟩
  | some r =>
    simp only [handle_twikit_rate_limits]
    split
    · exact ⟨DEFAULT_RATE_LIMIT_WAIT_SECONDS, rfl⟩
    · split
      · exact ⟨_, rfl⟩
      · exact ⟨DEFAULT_RATE_LIMIT_WAIT_SECONDS, rfl⟩

theorem process_one_flush_success (cfg : WriterConfig) (s : WState) (tweet : Rec)
    (env : StepEnv)
    (hsw : should_write_batch cfg (s.batch ++ [tweet]).length env = true)
    (hok : env.flushOk = true) :
    process_one cfg s tweet env = .next
      { batch := []
        total_count := s.total_count + 1
        last_tweet_id := tweet.id
        consecutive_failures := 0
        output_rows := s.output_rows ++ write_batch_to_parquet (s.batch ++ [tweet])
        checkpoints :=
          if (s.total_count + 1) % cfg.checkpoint_interval = 0 then
            s.checkpoints ++ [(tweet.id, s.total_count + 1)]
          else s.checkpoints
        flush_attempts := s.flush_attempts + 1 } := by
  have hsw' : should_write_batch cfg (s.batch.length + 1) env = true := by
    simpa using hsw
  simp [process_one, hsw', hok]

theorem process_one_flush_failure (cfg : WriterConfig) (s : WState) (tweet : Rec)
    (env : StepEnv)
    (hsw : should_write_batch cfg (s.batch ++ [tweet]).length env = true)
    (hbad : env.flushOk = false) :
    process_one cfg s tweet env =
      (if s.consecutive_failures + 1 ≥ 3 then StepResult.abortedRun else StepResult.next)
        { batch := []
          total_count := s.total_count + 1
          last_tweet_id := tweet.id
          consecutive_failures := s.consecutive_failures + 1
          output_rows := s.output_rows
          checkpoints := s.checkpoints
          flush_attempts := s.flush_attempts + 1 } := by
  have hsw' : should_write_batch cfg (s.batch.length + 1) env = true := by
    simpa using hsw
  simp [process_one, hsw', hbad]
  split <;> rfl

theorem process_one_no_flush (cfg : WriterConfig) (s : WState) (tweet : Rec)
    (env : StepEnv)
    (hsw : should_write_batch cfg (s.batch ++ [tweet]).length env = false) :
    process_one cfg s tweet env = .next
      { batch := s.batch ++ [tweet]
        total_count := s.total_count + 1
        last_tweet_id := tweet.id
        consecutive_failures := s.consecutive_failures
        output_rows := s.output_rows
        checkpoints := s.checkpoints
        flush_attempts := s.flush_attempts } := by
  have hsw' : should_write_batch cfg (s.batch.length + 1) env = false := by
    simpa using hsw
  simp [process_one, hsw']

/-! ## Claim theorems -/

/-- C5: for a rate-limited error carrying a (truthy) reset timestamp,
the wait slept before returning true is `reset − now + 60` clamped to
`[300, 3600]`; when the reset time is not strictly in the future, or
lies at least 3600 seconds away, the wait is the 900-second default;
in particular `reset = now + 120` yields a wait of 300. -/
theorem C5_reset_wait_clamped (reset now : Int) (hres : reset ≠ 0) :
    (reset > now ∧ reset - now < 3600 →
      handle_twikit_rate_limits now (.tooManyRequests (some reset)) =
        .retryAfter (min (max (reset - now + 60) 300) 3600)) ∧
    (¬ reset > now ∨ 3600 ≤ reset - now →
      handle_twikit_rate_limits now (.tooManyRequests (some reset)) =
        .retryAfter 900) ∧
    handle_twikit_rate_limits 1000000 (.tooManyRequests (some 1000120)) =
      .retryAfter 300 := by
  refine ⟨?_, ?_, by decide⟩
  · intro h
    simp only [handle_twikit_rate_limits, MAX_WAIT_SECONDS, MIN_WAIT_SECONDS,
      RATE_LIMIT_BUFFER_SECONDS, DEFAULT_RATE_LIMIT_WAIT_SECONDS]
    rw [if_neg hres, if_pos h]
  · intro h
    have hc : ¬ (reset > now ∧ reset - now < 3600) := by
      rcases h with h | h <;> omega
    simp only [handle_twikit_rate_limits, MAX_WAIT_SECONDS, MIN_WAIT_SECONDS,
      RATE_LIMIT_BUFFER_SECONDS, DEFAULT_RATE_LIMIT_WAIT_SECONDS]
    rw [if_neg hres, if_neg hc]

/-- Witness for C5 at concrete inputs: a reset 500 seconds ahead waits
560 seconds (500 + 60, inside the clamp window), and a reset in the
past falls back to the 900-second default. -/
theorem C5_reset_wait_clamped_witness :
    handle_twikit_rate_limits 1000 (.tooManyRequests (some 1500)) = .retryAfter 560 ∧
    handle_twikit_rate_limits 1000 (.tooManyRequests (some 900)) = .retryAfter 900 := by
  constructor
  · have h := (C5_reset_wait_clamped 1500 1000 (by decide)).1 ⟨by decide, by decide⟩
    have e : min (max ((1500 : Int) - 1000 + 60) 300) 3600 = 560 := by decide
    rw [e] at h
    exact h
  · exact (C5_reset_wait_clamped 900 1000 (by decide)).2.1 (Or.inl (by decide))

/-- C8: saving a checkpoint and loading it back returns a Checkpoint
with exactly the saved identifier and count; the side-file lives next to
the output file under the derived name `output_file + ".checkpoint"`,
and saving touches no other file. -/
theorem C8_checkpoint_roundtrip (out ts lastId : String) (count : Nat)
    (fs : String → CkFileContent) :
    load_checkpoint out (save_checkpoint out ts lastId count fs) =
      some { last_tweet_id := lastId, count := count, timestamp := ts,
             output_file := out } ∧
    checkpoint_file out = out ++ ".checkpoint" ∧
    ∀ name, name ≠ checkpoint_file out →
      save_checkpoint out ts lastId count fs name = fs name := by
  refine ⟨?_, rfl, ?_⟩
  · simp [load_checkpoint, save_checkpoint]
  · intro name hne
    simp [save_checkpoint, hne]

/-- Witness for C8: the round trip at `id = "t123"`, `count = 250` on an
empty store, and the untouched unrelated file. -/
theorem C8_checkpoint_roundtrip_witness :
    load_checkpoint "runA.parquet"
        (save_checkpoint "runA.parquet" "2026-01-01T00:00:00" "t123" 250
          (fun _ => .missingFile)) =
      some { last_tweet_id := "t123", count := 250,
             timestamp := "2026-01-01T00:00:00", output_file := "runA.parquet" } ∧
    save_checkpoint "runA.parquet" "2026-01-01T00:00:00" "t123" 250
        (fun _ => .missingFile) "other.parquet" = .missingFile := by
  refine ⟨(C8_checkpoint_roundtrip "runA.parquet" "2026-01-01T00:00:00" "t123" 250
    (fun _ => .missingFile)).1, ?_⟩
  exact (C8_checkpoint_roundtrip "runA.parquet" "2026-01-01T00:00:00" "t123" 250
    (fun _ => .missingFile)).2.2 "other.parquet" (by decide)

/-- C10: when the memory probe raises, `get_memory_usage_mb` reports
0.0, `check_memory_limit` returns true for every non-negative ceiling,
and the flush decision degenerates to the batch-size test alone — the
memory ceiling is silently ineffective. -/
theorem C10_memory_probe_failure (cfg : WriterConfig) (s : WState) (tweet : Rec)
    (flushOk : Bool) (h : 0 ≤ cfg.max_memory_mb) :
    get_memory_usage_mb none = 0 ∧
    check_memory_limit cfg.max_memory_mb none = true ∧
    should_write_batch cfg (s.batch ++ [tweet]).length
        { memProbe := none, flushOk := flushOk } =
      decide ((s.batch ++ [tweet]).length ≥ cfg.batch_size) := by
  have hchk : check_memory_limit cfg.max_memory_mb none = true := by
    unfold check_memory_limit get_memory_usage_mb
    rw [if_neg]
    exact not_lt.mpr h
  refine ⟨rfl, hchk, ?_⟩
  unfold should_write_batch
  rw [hchk]
  simp

/-- Witness for C10 at the default configuration: ceiling 500 MB, one
accepted record, failing probe — no flush is signalled. -/
theorem C10_memory_probe_failure_witness :
    get_memory_usage_mb none = 0 ∧
    check_memory_limit cfg50.max_memory_mb none = true ∧
    should_write_batch cfg50 (initWState.batch ++ [goodRec]).length
        { memProbe := none, flushOk := true } =
      decide ((initWState.batch ++ [goodRec]).length ≥ cfg50.batch_size) :=
  C10_memory_probe_failure cfg50 initWState goodRec true (by norm_num [cfg50])

theorem tweetOldB_eq_true {cutoff : Int} {t : Tw} :
    tweetOldB cutoff t = true ↔ ∃ d, get_tweet_date t = some d ∧ d < cutoff := by
  unfold tweetOldB
  cases h : get_tweet_date t <;> simp

theorem tweetOldB_of_date {cutoff d : Int} {t : Tw} (hd : get_tweet_date t = some d) :
    tweetOldB cutoff t = decide (d < cutoff) := by
  unfold tweetOldB
  rw [hd]

theorem tweetOldB_of_dateless {cutoff : Int} {t : Tw} (hd : get_tweet_date t = none) :
    tweetOldB cutoff t = false := by
  unfold tweetOldB
  rw [hd]

theorem yieldScan_old {cutoff d : Int} {t : Tw} {ts : List Tw}
    (hd : get_tweet_date t = some d) (hlt : d < cutoff) :
    yieldScan cutoff (t :: ts) = ([], true) := by
  simp [yieldScan, hd, hlt]

theorem yieldScan_fresh {cutoff d : Int} {t : Tw} {ts : List Tw}
    (hd : get_tweet_date t = some d) (hlt : ¬ d < cutoff) :
    yieldScan cutoff (t :: ts) =
      (t :: (yieldScan cutoff ts).1, (yieldScan cutoff ts).2) := by
  simp [yieldScan, hd, hlt]

theorem yieldScan_dateless {cutoff : Int} {t : Tw} {ts : List Tw}
    (hd : get_tweet_date t = none) :
    yieldScan cutoff (t :: ts) =
      (t :: (yieldScan cutoff ts).1, (yieldScan cutoff ts).2) := by
  simp [yieldScan, hd]

theorem yieldScan_mem_not_old (cutoff : Int) :
    ∀ items : List Tw, ∀ t ∈ (yieldScan cutoff items).1, tweetOldB cutoff t = false := by
  intro items
  induction items with
  | nil => simp [yieldScan]
  | cons hd tl ih =>
    intro t ht
    cases hdate : get_tweet_date hd with
    | some d =>
      by_cases hlt : d < cutoff
      · rw [yieldScan_old hdate hlt] at ht
        simp at ht
      · rw [yieldScan_fresh hdate hlt] at ht
        rcases List.mem_cons.mp ht with rfl | hmem
        · rw [tweetOldB_of_date hdate]
          simpa using hlt
        · exact ih t hmem
    | none =>
      rw [yieldScan_dateless hdate] at ht
      rcases List.mem_cons.mp ht with rfl | hmem
      · exact tweetOldB_of_dateless hdate
      · exact ih t hmem

theorem pagLoop_mem_not_old (cutoff : Int) :
    ∀ (script : List FetchRes) (retry : Nat),
      ∀ t ∈ (pagLoop cutoff script retry).yielded, tweetOldB cutoff t = false := by
  intro script
  induction script with
  | nil => intro retry t ht; simp [pagLoop] at ht
  | cons hd tl ih =>
    intro retry t ht
    cases hd with
    | ok p =>
      simp only [pagLoop] at ht
      by_cases hhit : (yieldScan cutoff p.items).2 = true
      · rw [if_pos hhit] at ht
        exact yieldScan_mem_not_old cutoff p.items t ht
      · rw [if_neg hhit] at ht
        by_cases hcur : p.next_cursor = true
        · rw [if_pos hcur] at ht
          rcases List.mem_append.mp ht with hmem | hmem
          · exact yieldScan_mem_not_old cutoff p.items t hmem
          · exact ih 0 t hmem
        · rw [if_neg hcur] at ht
          exact yieldScan_mem_not_old cutoff p.items t ht
    | err e =>
      cases hh : handle_twikit_rate_limits 0 e with
      | retryAfter w =>
        simp only [pagLoop, hh] at ht
        by_cases hr : retry + 1 ≥ 3
        · rw [if_pos hr] at ht
          simp at ht
        · rw [if_neg hr] at ht
          exact ih (retry + 1) t ht
      | stop =>
        simp only [pagLoop, hh] at ht
        simp at ht
      | reraised =>
        simp only [pagLoop, hh] at ht
        simp at ht

theorem extractLoop_mem_not_old (cutoff : Int) :
    ∀ (script : List FetchRes) (retry : Nat),
      ∀ t ∈ (extractLoop cutoff script retry).yielded, tweetOldB cutoff t = false := by
  intro script
  induction script with
  | nil => intro retry t ht; simp [extractLoop] at ht
  | cons hd tl ih =>
    intro retry t ht
    cases hd with
    | ok p =>
      simp only [extractLoop] at ht
      by_cases hhit : (yieldScan cutoff p.items).2 = true
      · rw [if_pos hhit] at ht
        exact yieldScan_mem_not_old cutoff p.items t ht
      · rw [if_neg hhit] at ht
        by_cases hcur : p.next_cursor = true
        · rw [if_pos hcur] at ht
          rcases List.mem_append.mp ht with hmem | hmem
          · exact yieldScan_mem_not_old cutoff p.items t hmem
          · exact pagLoop_mem_not_old cutoff tl 0 t hmem
        · rw [if_neg hcur] at ht
          exact yieldScan_mem_not_old cutoff p.items t ht
    | err e =>
      cases hh : handle_twikit_rate_limits 0 e with
      | retryAfter w =>
        simp only [extractLoop, hh] at ht
        by_cases hr : retry + 1 ≥ 3
        · rw [if_pos hr] at ht
          simp at ht
        · rw [if_neg hr] at ht
          exact ih (retry + 1) t ht
      | stop =>
        simp only [extractLoop, hh] at ht
        simp at ht
      | reraised =>
        simp only [extractLoop, hh] at ht
        simp at ht

theorem yieldScan_old_stops (cutoff : Int) :
    ∀ (pre : List Tw) (t : Tw) (post : List Tw),
      (∀ x ∈ pre, tweetOldB cutoff x = false) → tweetOldB cutoff t = true →
      yieldScan cutoff (pre ++ t :: post) = (pre, true) := by
  intro pre
  induction pre with
  | nil =>
    intro t post _ hold
    obtain ⟨d, hd, hlt⟩ := tweetOldB_eq_true.mp hold
    simp only [List.nil_append]
    exact yieldScan_old hd hlt
  | cons x xs ih =>
    intro t post hpre hold
    have hx : tweetOldB cutoff x = false := hpre x (List.mem_cons_self x xs)
    have hrest := ih t post (fun y hy => hpre y (List.mem_cons_of_mem x hy)) hold
    simp only [List.cons_append]
    cases hdate : get_tweet_date x with
    | some d =>
      have hlt : ¬ d < cutoff := by
        rw [tweetOldB_of_date hdate] at hx
        simpa using hx
      rw [yieldScan_fresh hdate hlt, hrest]
    | none =>
      rw [yieldScan_dateless hdate, hrest]

/-- C1: the extraction sequence never yields a record with a parsed
timestamp strictly before the cutoff; and as soon as the scan of a page
meets such a record, the sequence returns at once with only the records
that preceded it, regardless of the rest of the page and of all
remaining pages. -/
theorem C1_cutoff_termination (cutoff : Int) :
    (∀ script : List FetchRes,
      ∀ t ∈ (extract_with_pagination cutoff script).yielded,
        tweetOldB cutoff t = false) ∧
    (∀ (pre : List Tw) (t : Tw) (post : List Tw) (c : Bool) (rest : List FetchRes),
      (∀ x ∈ pre, tweetOldB cutoff x = false) → tweetOldB cutoff t = true →
      extract_with_pagination cutoff
          (.ok { items := pre ++ t :: post, next_cursor := c } :: rest) =
        ⟨pre, .cutoffHit⟩) := by
  constructor
  · intro script
    exact extractLoop_mem_not_old cutoff script 0
  · intro pre t post c rest hpre hold
    have hscan := yieldScan_old_stops cutoff pre t post hpre hold
    simp [extract_with_pagination, extractLoop, hscan]

/-- Witness for C1: a page holding a fresh tweet, then one older than
the cutoff, then another fresh one, followed by one more page: exactly
the first tweet is yielded and the sequence stops on the cutoff. -/
theorem C1_cutoff_termination_witness :
    extract_with_pagination 100
        [.ok { items := [twWithDate 150, twWithDate 50, twWithDate 200],
               next_cursor := true },
         .ok { items := [twWithDate 40], next_cursor := false }] =
      ⟨[twWithDate 150], .cutoffHit⟩ := by
  have h := (C1_cutoff_termination 100).2 [twWithDate 150] (twWithDate 50)
    [twWithDate 200] true [.ok { items := [twWithDate 40], next_cursor := false }]
    (by decide) (by decide)
  exact h

/-- C9: when none of the probed date attributes yields a parsed date,
`get_tweet_date` returns none, the tweet never counts as older than any
cutoff, the page scan yields it and keeps scanning, and a run whose
page contains only that tweet emits it and completes. -/
theorem C9_dateless_yielded (t : Tw)
    (h1 : dateAttrFails t.created_at_datetime = true)
    (h2 : dateAttrFails t.created_at = true)
    (h3 : dateAttrFails t.date = true) :
    get_tweet_date t = none ∧
    (∀ cutoff : Int, tweetOldB cutoff t = false) ∧
    (∀ (cutoff : Int) (ts : List Tw),
      yieldScan cutoff (t :: ts) =
        (t :: (yieldScan cutoff ts).1, (yieldScan cutoff ts).2)) ∧
    (∀ cutoff : Int,
      extract_with_pagination cutoff [.ok { items := [t], next_cursor := false }] =
        ⟨[t], .completed⟩) := by
  have hnone : get_tweet_date t = none := by
    rcases t with ⟨tid, a, b, c⟩
    simp only at h1 h2 h3
    cases a <;> cases b <;> cases c <;> simp_all [dateAttrFails, get_tweet_date]
  refine ⟨hnone, ?_, ?_, ?_⟩
  · intro cutoff
    exact tweetOldB_of_dateless hnone
  · intro cutoff ts
    exact yieldScan_dateless hnone
  · intro cutoff
    have hscan : yieldScan cutoff [t] = ([t], false) := by
      rw [yieldScan_dateless hnone]
      rfl
    simp [extract_with_pagination, extractLoop, hscan]

/-- Witness for C9: a concrete tweet whose first attribute is absent,
second unparseable, third absent, is yielded and completes the run. -/
theorem C9_dateless_yielded_witness :
    get_tweet_date datelessTw = none ∧
    extract_with_pagination 0 [.ok { items := [datelessTw], next_cursor := false }] =
      ⟨[datelessTw], .completed⟩ := by
  have h := C9_dateless_yielded datelessTw rfl rfl rfl
  exact ⟨h.1, h.2.2.2 0⟩

/-- Counterexample to C6 as stated: when the first-page fetch itself
fails with rate-limit errors on all 3 attempts, `extract_with_pagination`
raises RuntimeError (src/tweet_extractor.py, lines 95-96) instead of
ending the sequence early without an exception. -/
theorem C6_counterexample :
    extract_with_pagination 0 [rlErr, rlErr, rlErr] = ⟨[], .raised⟩ ∧
    (extract_with_pagination 0 [rlErr, rlErr, rlErr]).ending ≠ .truncated ∧
    (extract_with_pagination 0 [rlErr, rlErr, rlErr]).ending ≠ .completed := by
  decide

/-- C6 (amended): when a pagination fetch — a page after the first —
exhausts its 3 retries on rate-limit errors, the sequence ends early
and silently (no exception), and every record yielded before the
truncation point is still delivered; the first-page fetch, by contrast,
raises after its 3 attempts. -/
theorem C6_pagination_exhaustion_truncates (cutoff : Int) (p : Page)
    (o1 o2 o3 : Option Int)
    (hscan : (yieldScan cutoff p.items).2 = false) (hcur : p.next_cursor = true) :
    extract_with_pagination cutoff
        [.ok p, .err (.tooManyRequests o1), .err (.tooManyRequests o2),
         .err (.tooManyRequests o3)] =
      ⟨(yieldScan cutoff p.items).1, .truncated⟩ ∧
    (extract_with_pagination cutoff
        [.err (.tooManyRequests o1), .err (.tooManyRequests o2),
         .err (.tooManyRequests o3)]).ending = .raised := by
  obtain ⟨w1, hw1⟩ := handle_tmr_is_retry 0 o1
  obtain ⟨w2, hw2⟩ := handle_tmr_is_retry 0 o2
  obtain ⟨w3, hw3⟩ := handle_tmr_is_retry 0 o3
  have hpag : pagLoop cutoff
      [FetchRes.err (.tooManyRequests o1), FetchRes.err (.tooManyRequests o2),
       FetchRes.err (.tooManyRequests o3)] 0 = ⟨[], .truncated⟩ := by
    simp [pagLoop, hw1, hw2, hw3]
  constructor
  · simp [extract_with_pagination, extractLoop, hscan, hcur, hpag]
  · simp [extract_with_pagination, extractLoop, hw1, hw2, hw3]

/-- Witness for C6 (amended): a first page with a cursor and no cutoff
hit, followed by three rate-limited fetches, truncates silently. -/
theorem C6_pagination_exhaustion_truncates_witness :
    extract_with_pagination 0
        [.ok { items := [twWithDate 5], next_cursor := true }, rlErr, rlErr, rlErr] =
      ⟨[twWithDate 5], .truncated⟩ := by
  have h := C6_pagination_exhaustion_truncates 0
    { items := [twWithDate 5], next_cursor := true } none none none (by decide) rfl
  exact h.1

theorem StepResult.state_ite (c : Prop) [Decidable c] (s : WState) :
    ((if c then StepResult.abortedRun else StepResult.next) s).state = s := by
  split <;> rfl

/-- C2: every row a flush persists has a non-null identifier and at
least one non-empty text field; a batch record failing this predicate
fails validation, is dropped, and no persisted row equals its
normalized image. -/
theorem C2_persisted_validation (batch : List Rec) :
    (∀ row ∈ write_batch_to_parquet batch, spec_persisted_ok row) ∧
    (∀ t ∈ batch, ¬ spec_record_ok t →
      validate_tweet_data t = false ∧
      ∀ row ∈ write_batch_to_parquet batch, row ≠ normalize_tweet_data t) := by
  refine ⟨persisted_rows_ok batch, ?_⟩
  intro t _ hbad
  constructor
  · cases hv : validate_tweet_data t with
    | false => rfl
    | true =>
      exfalso
      apply hbad
      rw [validate_eq_true] at hv
      refine ⟨(truthyStr_eq_true.mp hv.1).1, ?_⟩
      rcases hv.2 with h | h
      · exact Or.inl (truthyStr_eq_true.mp h)
      · exact Or.inr (truthyStr_eq_true.mp h)
  · intro row hrow heq
    have hok := persisted_rows_ok batch row hrow
    apply hbad
    rw [heq] at hok
    unfold spec_persisted_ok at hok
    rw [normalize_preserves_id, normalize_preserves_text,
      normalize_preserves_full_text] at hok
    exact hok

/-- Witness for C2: the record with text but no identifier fails
validation, and flushing a batch holding it and a valid record
persists only the valid one. -/
theorem C2_persisted_validation_witness :
    validate_tweet_data noIdRec = false ∧
    write_batch_to_parquet [goodRec, noIdRec] = [normalize_tweet_data goodRec] := by
  constructor
  · exact ((C2_persisted_validation [goodRec, noIdRec]).2 noIdRec (by decide)
      (by decide)).1
  · decide

/-- C3: with a flush triggered, success resets the consecutive-failure
counter to zero and continues; failure increments it and the iteration
aborts exactly when the counter reaches 3; concretely, with batch size
1, fail–fail–success ends with counter 0 and no abort, while
fail–fail–fail aborts. -/
theorem C3_consecutive_failure_policy (cfg : WriterConfig) (s : WState) (tweet : Rec)
    (env : StepEnv)
    (htrig : should_write_batch cfg (s.batch ++ [tweet]).length env = true) :
    (env.flushOk = true →
      (process_one cfg s tweet env).isAborted = false ∧
      (process_one cfg s tweet env).state.consecutive_failures = 0) ∧
    (env.flushOk = false →
      (process_one cfg s tweet env).state.consecutive_failures =
        s.consecutive_failures + 1 ∧
      ((process_one cfg s tweet env).isAborted = true ↔
        s.consecutive_failures + 1 ≥ 3)) ∧
    (processSteps cfgB1 initWState
        [(tweet, envFlushFail), (tweet, envFlushFail),
         (tweet, envFlushOk)]).state.consecutive_failures = 0 ∧
    (processSteps cfgB1 initWState
        [(tweet, envFlushFail), (tweet, envFlushFail),
         (tweet, envFlushOk)]).isAborted = false ∧
    (processSteps cfgB1 initWState
        [(tweet, envFlushFail), (tweet, envFlushFail),
         (tweet, envFlushFail)]).isAborted = true := by
  refine ⟨?_, ?_, ?_, ?_, ?_⟩
  · intro hok
    rw [process_one_flush_success cfg s tweet env htrig hok]
    exact ⟨rfl, rfl⟩
  · intro hbad
    rw [process_one_flush_failure cfg s tweet env htrig hbad]
    constructor
    · rw [StepResult.state_ite]
    · by_cases habort : s.consecutive_failures + 1 ≥ 3
      · rw [if_pos habort]
        simp [StepResult.isAborted, habort]
      · rw [if_neg habort]
        simp [StepResult.isAborted, habort]
  · simp [processSteps, process_one, should_write_batch, cfgB1, envFlushFail,
      envFlushOk, initWState, StepResult.state]
  · simp [processSteps, process_one, should_write_batch, cfgB1, envFlushFail,
      envFlushOk, initWState, StepResult.isAborted]
  · simp [processSteps, process_one, should_write_batch, cfgB1, envFlushFail,
      initWState, StepResult.isAborted]

/-- Witness for C3 at a concrete input: a successful flush with batch
size 1 leaves the failure counter at zero and does not abort. -/
theorem C3_consecutive_failure_policy_witness :
    (process_one cfgB1 initWState goodRec envFlushOk).isAborted = false ∧
    (process_one cfgB1 initWState goodRec envFlushOk).state.consecutive_failures = 0 := by
  exact (C3_consecutive_failure_policy cfgB1 initWState goodRec envFlushOk
    (by simp [should_write_batch, cfgB1, initWState])).1 rfl

theorem processSteps_append (cfg : WriterConfig) (l1 l2 : List (Rec × StepEnv)) :
    ∀ s, processSteps cfg s (l1 ++ l2) =
      match processSteps cfg s l1 with
      | .next s' => processSteps cfg s' l2
      | .abortedRun s' => .abortedRun s' := by
  induction l1 with
  | nil => intro s; simp [processSteps]
  | cons hd tl ih =>
    intro s
    obtain ⟨t, env⟩ := hd
    simp only [List.cons_append, processSteps]
    cases process_one cfg s t env with
    | next s' => exact ih s'
    | abortedRun s' => rfl

theorem processSteps_fill_below (cfg : WriterConfig) (r : Rec) (env : StepEnv)
    (hmem : check_memory_limit cfg.max_memory_mb env.memProbe = true) :
    ∀ (n : Nat) (s : WState), s.batch.length + n < cfg.batch_size →
      ∃ s', processSteps cfg s (List.replicate n (r, env)) = .next s' ∧
        s'.batch = s.batch ++ List.replicate n r ∧
        s'.flush_attempts = s.flush_attempts ∧
        s'.total_count = s.total_count + n ∧
        s'.output_rows = s.output_rows ∧
        s'.checkpoints = s.checkpoints ∧
        s'.consecutive_failures = s.consecutive_failures := by
  intro n
  induction n with
  | zero =>
    intro s _
    refine ⟨s, rfl, by simp, rfl, rfl, rfl, rfl, rfl⟩
  | succ k ih =>
    intro s hlt
    have hsw : should_write_batch cfg (s.batch ++ [r]).length env = false := by
      simp only [should_write_batch, hmem, Bool.not_true, Bool.or_false,
        decide_eq_false_iff_not, List.length_append, List.length_singleton]
      omega
    have hstep := process_one_no_flush cfg s r env hsw
    rw [List.replicate_succ]
    simp only [processSteps, hstep]
    obtain ⟨s2, hrun, hb, hf, htc, ho, hc, hcf⟩ := ih
      { batch := s.batch ++ [r]
        total_count := s.total_count + 1
        last_tweet_id := r.id
        consecutive_failures := s.consecutive_failures
        output_rows := s.output_rows
        checkpoints := s.checkpoints
        flush_attempts := s.flush_attempts }
      (by dsimp only; simp only [List.length_append, List.length_singleton]; omega)
    refine ⟨s2, hrun, ?_, hf, ?_, ho, hc, hcf⟩
    · rw [hb]
      dsimp only
      simp [List.replicate_succ, List.append_assoc]
    · rw [htc]
      dsimp only
      omega

/-- C4: one iteration attempts a flush exactly when the batch, with the
accepted record appended, has reached `batch_size` or resident memory
strictly exceeds `max_memory_mb`; after any flush attempt the batch is
empty, and without one the batch keeps the appended record; with batch
size 50 and memory under the ceiling, 49 accepted records trigger no
flush and the 50th triggers exactly one, leaving an empty batch. -/
theorem C4_flush_trigger_and_clear (cfg : WriterConfig) (s : WState) (tweet : Rec)
    (env : StepEnv) :
    (should_write_batch cfg (s.batch ++ [tweet]).length env = true ↔
      ((s.batch ++ [tweet]).length ≥ cfg.batch_size ∨
        get_memory_usage_mb env.memProbe > cfg.max_memory_mb)) ∧
    (process_one cfg s tweet env).state.flush_attempts =
      s.flush_attempts +
        (if should_write_batch cfg (s.batch ++ [tweet]).length env = true then 1
         else 0) ∧
    (should_write_batch cfg (s.batch ++ [tweet]).length env = true →
      (process_one cfg s tweet env).state.batch = []) ∧
    (should_write_batch cfg (s.batch ++ [tweet]).length env = false →
      (process_one cfg s tweet env).state.batch = s.batch ++ [tweet]) ∧
    (∃ s49, processSteps cfg50 initWState
        (List.replicate 49 (blankRec, envFlushOk)) = .next s49 ∧
      s49.flush_attempts = 0 ∧ s49.batch.length = 49) ∧
    (∃ s50, processSteps cfg50 initWState
        (List.replicate 50 (blankRec, envFlushOk)) = .next s50 ∧
      s50.flush_attempts = 1 ∧ s50.batch = []) := by
  have hmem50 : check_memory_limit cfg50.max_memory_mb envFlushOk.memProbe = true := by
    simpa [cfg50, envFlushOk] using check_memory_limit_500_zero
  have h49 := processSteps_fill_below cfg50 blankRec envFlushOk hmem50 49 initWState
    (by simp [initWState, cfg50])
  obtain ⟨s49, hrun49, hb49, hf49, htc49, ho49, hc49, hcf49⟩ := h49
  refine ⟨should_write_batch_iff, ?_, ?_, ?_, ?_, ?_⟩
  · by_cases hsw : should_write_batch cfg (s.batch ++ [tweet]).length env = true
    · rw [if_pos hsw]
      cases henv : env.flushOk with
      | true =>
        rw [process_one_flush_success cfg s tweet env hsw henv]
        rfl
      | false =>
        rw [process_one_flush_failure cfg s tweet env hsw henv, StepResult.state_ite]
    · rw [if_neg hsw]
      have hsw' : should_write_batch cfg (s.batch ++ [tweet]).length env = false := by
        simpa using hsw
      rw [process_one_no_flush cfg s tweet env hsw']
      rfl
  · intro hsw
    cases henv : env.flushOk with
    | true =>
      rw [process_one_flush_success cfg s tweet env hsw henv]
      rfl
    | false =>
      rw [process_one_flush_failure cfg s tweet env hsw henv, StepResult.state_ite]
  · intro hsw
    rw [process_one_no_flush cfg s tweet env hsw]
    rfl
  · refine ⟨s49, hrun49, by rw [hf49]; rfl, by rw [hb49]; simp [initWState]⟩
  · have hrepl : List.replicate 50 (blankRec, envFlushOk) =
        List.replicate 49 (blankRec, envFlushOk) ++ [(blankRec, envFlushOk)] := by
      rw [← List.replicate_succ']
    have hlen49 : s49.batch.length = 49 := by rw [hb49]; simp [initWState]
    have hsw50 : should_write_batch cfg50 (s49.batch ++ [blankRec]).length envFlushOk
        = true := by
      have h50 : (s49.batch ++ [blankRec]).length = 50 := by
        simp [hlen49]
      simp [should_write_batch, h50, cfg50]
    have hstep := process_one_flush_success cfg50 s49 blankRec envFlushOk hsw50 rfl
    have hone : processSteps cfg50 s49 [(blankRec, envFlushOk)] =
        StepResult.next
          { batch := []
            total_count := s49.total_count + 1
            last_tweet_id := blankRec.id
            consecutive_failures := 0
            output_rows := s49.output_rows ++
              write_batch_to_parquet (s49.batch ++ [blankRec])
            checkpoints :=
              if (s49.total_count + 1) % cfg50.checkpoint_interval = 0 then
                s49.checkpoints ++ [(blankRec.id, s49.total_count + 1)]
              else s49.checkpoints
            flush_attempts := s49.flush_attempts + 1 } := by
      simp only [processSteps, hstep]
    have hall : processSteps cfg50 initWState
        (List.replicate 50 (blankRec, envFlushOk)) =
        processSteps cfg50 s49 [(blankRec, envFlushOk)] := by
      rw [hrepl, processSteps_append]
      simp only [hrun49]
    rw [hall, hone]
    refine ⟨_, rfl, ?_, rfl⟩
    dsimp only
    rw [hf49]
    rfl

/-- Witness for C4 at a concrete input: with batch size 1, a single
accepted record triggers a flush and leaves the batch empty. -/
theorem C4_flush_trigger_and_clear_witness :
    (process_one cfgB1 initWState goodRec envFlushOk).state.batch = [] := by
  exact (C4_flush_trigger_and_clear cfgB1 initWState goodRec envFlushOk).2.2.1
    (by simp [should_write_batch, cfgB1, initWState])

/-- Counterexample to C7 as stated: with batch size 2 and checkpoint
interval 1, after the first accepted record the count is a positive
multiple of the interval, yet no flush fires and no checkpoint has been
created. -/
theorem C7_counterexample :
    (1 : Nat) % cfgCkpt.checkpoint_interval = 0 ∧
    (processSteps cfgCkpt initWState [(goodRec, envFlushOk)]).state.total_count = 1 ∧
    (processSteps cfgCkpt initWState [(goodRec, envFlushOk)]).state.checkpoints = [] := by
  refine ⟨rfl, ?_, ?_⟩ <;>
    simp [processSteps, process_one, should_write_batch, cfgCkpt, envFlushOk,
      initWState, check_memory_limit_500_zero, StepResult.state]

/-- C7 (amended): an iteration saves a checkpoint exactly when it
triggers a flush, the flush succeeds, and the new total count is a
multiple of `checkpoint_interval`; the checkpoint then records the last
accepted identifier and the count. A count that is a multiple of the
interval but triggers no flush (or whose flush fails) saves nothing. -/
theorem C7_checkpoint_only_at_flush (cfg : WriterConfig) (s : WState) (tweet : Rec)
    (env : StepEnv) :
    (process_one cfg s tweet env).state.checkpoints =
      if should_write_batch cfg (s.batch ++ [tweet]).length env = true ∧
          env.flushOk = true ∧
          (s.total_count + 1) % cfg.checkpoint_interval = 0 then
        s.checkpoints ++ [(tweet.id, s.total_count + 1)]
      else s.checkpoints := by
  by_cases hsw : should_write_batch cfg (s.batch ++ [tweet]).length env = true
  · have hsw1 : should_write_batch cfg (s.batch.length + 1) env = true := by
      simpa using hsw
    cases henv : env.flushOk with
    | true =>
      by_cases hmod : (s.total_count + 1) % cfg.checkpoint_interval = 0
      · simp [process_one_flush_success cfg s tweet env hsw henv,
          StepResult.state, hsw1, hmod]
      · simp [process_one_flush_success cfg s tweet env hsw henv,
          StepResult.state, hmod]
    | false =>
      simp [process_one_flush_failure cfg s tweet env hsw henv,
        StepResult.state_ite]
  · have hsw0 : should_write_batch cfg (s.batch.length + 1) env = false := by
      simpa using hsw
    simp [process_one_no_flush cfg s tweet env (by simpa using hsw),
      StepResult.state, hsw0]

end PullTweets
